import Mathlib

/-!
Verification of the fastapi-vertical-slice-pycharm service against its
specification.  The Python source is shallowly embedded: Pydantic
validators become Lean functions on `String`, route handlers become Lean
functions returning an explicit `HandlerResult`, and the stub service
layer is embedded exactly as written (constant `none` / `false` /
"not implemented" results).  The Python string primitives used by the
source (`str.split`, `str.strip`, `str.upper`, `str.startswith`) are
embedded as structurally recursive functions on the character list, so
every definition evaluates by kernel reduction.
-/

namespace FastApiSlice

/-! ## Python string primitives -/

/-- Python's whitespace set for `str.strip()` (ASCII part):
space, tab, newline, carriage return, vertical tab, form feed. -/
def isPySpace (c : Char) : Bool :=
  c = ' ' ∨ c = '\t' ∨ c = '\n' ∨ c = '\r' ∨ c = '\x0b' ∨ c = '\x0c'

/-- Split a character list at every occurrence of the separator
character, keeping empty segments; `Python`'s `s.split(sep)` semantics
for a one-character separator (so the empty string yields one empty
segment). -/
def splitChar (sep : Char) : List Char → List (List Char)
  | [] => [[]]
  | c :: cs =>
    let r := splitChar sep cs
    if c = sep then [] :: r
    else
      match r with
      | [] => [[c]]
      | g :: gs => (c :: g) :: gs

/-- Python `s.split(",")`. -/
def pySplitComma (s : String) : List String :=
  (splitChar ',' s.toList).map fun l => String.mk l

/-- Python `s.strip()`: drop leading and trailing whitespace. -/
def pyStrip (s : String) : String :=
  String.mk (((s.toList.dropWhile isPySpace).reverse.dropWhile
    isPySpace).reverse)

/-- ASCII upper-casing of one character, Python `str.upper` on the
ASCII range (the only range the source exercises). -/
def pyUpperChar (c : Char) : Char :=
  if 'a' ≤ c ∧ c ≤ 'z' then Char.ofNat (c.toNat - 32) else c

/-- Python `s.upper()` (ASCII model). -/
def pyUpper (s : String) : String :=
  String.mk (s.toList.map pyUpperChar)

/-- Python `s.startswith(p)`. -/
def pyStartsWith (s p : String) : Bool :=
  p.toList.isPrefixOf s.toList

/-- The characters strictly before the first occurrence of the
substring `"://"`, or `none` when the string has no `"://"`. -/
def schemeChars : List Char → Option (List Char)
  | ':' :: '/' :: '/' :: _ => some []
  | [] => none
  | c :: cs => (schemeChars cs).map fun l => c :: l

/-- The scheme of a URL string: the part before the first `"://"`. -/
def urlScheme (v : String) : Option String :=
  (schemeChars v.toList).map fun l => String.mk l

/-! ## Embedding of `src/shared/config.py` -/

/-- Outcome of a Pydantic field validator: either the (possibly
transformed) value, or a raised `ValueError` with its message.
Embeds the `raise ValueError(...)` / `return v` pattern of
`src/shared/config.py`. -/
inductive VResult (α : Type) where
  | ok (v : α)
  | error (msg : String)
deriving DecidableEq, Repr

/-- `true` exactly when the validator raised. -/
def VResult.isError {α : Type} : VResult α → Bool
  | .ok _ => false
  | .error _ => true

/-- A Pydantic list-field validator receives either a raw string (from
the environment) or an already-parsed list; embeds the
`isinstance(v, str)` dispatch in the four list-field validators of
`src/shared/config.py`. -/
inductive StrOrList where
  | str (s : String)
  | list (l : List String)
deriving DecidableEq, Repr

/-- The `Settings` record of `src/shared/config.py` (the fields the
embedded behavior reads; defaults as declared in the source).
`SECRET_KEY`, `JWT_SECRET_KEY` and `DATABASE_URL` have no default in
the source (`Field(...)`). -/
structure Settings where
  APP_NAME : String := "FastAPI Vertical Slice"
  APP_VERSION : String := "0.1.0"
  DEBUG : Bool := false
  HOST : String := "0.0.0.0"
  PORT : Int := 8000
  SECRET_KEY : String
  JWT_SECRET_KEY : String
  DATABASE_URL : String
  ALLOWED_ORIGINS : List String := ["http://localhost:3000", "http://localhost:8000"]
  ALLOWED_METHODS : List String := ["GET", "POST", "PUT", "DELETE", "PATCH"]
  ALLOWED_HEADERS : List String := ["*"]
  ALLOWED_HOSTS : List String := ["*"]
deriving DecidableEq, Repr

namespace Settings

/-- `Settings.validate_database_url` (src/shared/config.py lines
110-115): for a string input, raise `ValueError` unless the string
starts with `"postgresql"`; otherwise return the value unchanged. -/
def validate_database_url (v : String) : VResult String :=
  if ¬ (pyStartsWith v "postgresql" = true) then
    .error "DATABASE_URL must be a PostgreSQL URL"
  else
    .ok v

/-- The two placeholder literals rejected by
`Settings.validate_secret_keys` (src/shared/config.py line 120). -/
def placeholderSecrets : List String :=
  ["your-super-secret-key-change-in-production",
   "jwt-secret-key-change-in-production"]

/-- `Settings.validate_secret_keys` (src/shared/config.py lines
117-122): raise `ValueError` when the value is one of the two
placeholder literals, otherwise return it unchanged.  The same
validator is attached to both `SECRET_KEY` and `JWT_SECRET_KEY`. -/
def validate_secret_keys (v : String) : VResult String :=
  if v ∈ placeholderSecrets then
    .error "Please change the default secret key in production"
  else
    .ok v

/-- `Settings.parse_allowed_origins` (src/shared/config.py lines
124-129): a string is split on commas and each element stripped of
surrounding whitespace; a list passes through unchanged. -/
def parse_allowed_origins : StrOrList → List String
  | .str v => (pySplitComma v).map pyStrip
  | .list v => v

/-- `Settings.parse_allowed_methods` (src/shared/config.py lines
131-136): a string is split on commas, each element stripped and
upper-cased; a list passes through unchanged. -/
def parse_allowed_methods : StrOrList → List String
  | .str v => (pySplitComma v).map fun m => pyUpper (pyStrip m)
  | .list v => v

/-- `Settings.parse_allowed_headers` (src/shared/config.py lines
138-143): same shape as `parse_allowed_origins`. -/
def parse_allowed_headers : StrOrList → List String
  | .str v => (pySplitComma v).map pyStrip
  | .list v => v

/-- `Settings.parse_allowed_hosts` (src/shared/config.py lines
145-150): same shape as `parse_allowed_origins`. -/
def parse_allowed_hosts : StrOrList → List String
  | .str v => (pySplitComma v).map pyStrip
  | .list v => v

/-- The URL schemes accepted by Pydantic's `PostgresDsn` type, the
declared type of the `DATABASE_URL` field (src/shared/config.py line
52).  This models the third-party library check that runs after the
`pre=True` validator `validate_database_url`. -/
def postgresDsnSchemes : List String :=
  ["postgres", "postgresql", "postgresql+asyncpg", "postgresql+pg8000",
   "postgresql+psycopg", "postgresql+psycopg2", "postgresql+psycopg2cffi",
   "postgresql+py-postgresql", "postgresql+pygresql"]

/-- Model of Pydantic's `PostgresDsn` validation of a string: the URL
must have a scheme (the part before `"://"`) drawn from
`postgresDsnSchemes`; otherwise field validation fails. -/
def postgresDsnCheck (v : String) : VResult String :=
  match urlScheme v with
  | some scheme =>
      if scheme ∈ postgresDsnSchemes then .ok v
      else .error "URL scheme should be a PostgreSQL scheme"
  | none => .error "invalid URL"

/-- The full validation pipeline applied to a string value of the
`DATABASE_URL` field during `Settings` construction: first the
`pre=True` validator `validate_database_url`, then the `PostgresDsn`
type validation. -/
def databaseUrlValidation (v : String) : VResult String :=
  match validate_database_url v with
  | .error m => .error m
  | .ok v' => postgresDsnCheck v'

/-- `true` exactly when the string, read as a URL, has a scheme from
the PostgreSQL family. -/
def hasPostgresScheme (v : String) : Bool :=
  match urlScheme v with
  | some scheme => decide (scheme ∈ postgresDsnSchemes)
  | none => false

end Settings

/-! ## Embedding of the route handlers -/

/-- Outcome of one FastAPI route handler invocation: a successful
response with its status code and body, a raised `HTTPException` with
status code and detail, or an uncaught Python exception (exception
class name and message). -/
inductive HandlerResult (α : Type) where
  | ok (statusCode : Nat) (body : α)
  | httpError (statusCode : Nat) (detail : String)
  | pyError (excName : String) (msg : String)
deriving DecidableEq, Repr

/-- Python `uuid.UUID` values, modelled by their 128-bit integer
value. -/
abbrev UUID : Type := Nat

/-- Python `datetime.datetime` values, modelled by a timestamp. -/
abbrev Datetime : Type := Int

/-- An opaque model of one SQLAlchemy `AsyncSession` handed to the
handlers by `get_db_session`; the stub service never inspects it. -/
structure AsyncSession where
  sessionId : Nat
deriving DecidableEq, Repr

/-- `UserCreate` of src/users/schemas.py: the `UserBase` fields plus
the write-only password. -/
structure UserCreate where
  email : String
  first_name : String
  last_name : String
  is_active : Bool := true
  password : String
deriving DecidableEq, Repr

/-- `UserUpdate` of src/users/schemas.py: every field optional. -/
structure UserUpdate where
  email : Option String := none
  first_name : Option String := none
  last_name : Option String := none
  is_active : Option Bool := none
deriving DecidableEq, Repr

/-- `UserRead` of src/users/schemas.py: the `UserBase` fields plus id
and the two timestamps. -/
structure UserRead where
  email : String
  first_name : String
  last_name : String
  is_active : Bool
  id : UUID
  created_at : Datetime
  updated_at : Datetime
deriving DecidableEq, Repr

/-- Outcome of a service call that may raise `NotImplementedError`
(src/users/service.py `create_user`). -/
inductive PyResult (α : Type) where
  | ok (v : α)
  | notImplementedError (msg : String)
deriving DecidableEq, Repr

namespace UserService

/-- `UserService.get_users` (src/users/service.py lines 17-20):
placeholder, returns the empty list. -/
def get_users (_db : AsyncSession) (_skip _limit : Int) : List UserRead :=
  []

/-- `UserService.get_user_by_id` (src/users/service.py lines 22-25):
placeholder, returns `None` for every id. -/
def get_user_by_id (_db : AsyncSession) (_user_id : UUID) :
    Option UserRead :=
  none

/-- `UserService.get_user_by_email` (src/users/service.py lines
27-30): placeholder, returns `None` for every email. -/
def get_user_by_email (_db : AsyncSession) (_email : String) :
    Option UserRead :=
  none

/-- `UserService.create_user` (src/users/service.py lines 32-35):
placeholder, raises `NotImplementedError("User creation not
implemented")`. -/
def create_user (_db : AsyncSession) (_user_data : UserCreate) :
    PyResult UserRead :=
  .notImplementedError "User creation not implemented"

/-- `UserService.update_user` (src/users/service.py lines 37-40):
placeholder, returns `None`. -/
def update_user (_db : AsyncSession) (_user_id : UUID)
    (_user_data : UserUpdate) : Option UserRead :=
  none

/-- `UserService.delete_user` (src/users/service.py lines 42-45):
placeholder, returns `False`. -/
def delete_user (_db : AsyncSession) (_user_id : UUID) : Bool :=
  false

end UserService

namespace UsersApi

/-- The `get_users` route handler (src/users/api.py lines 21-40). -/
def get_users (db : AsyncSession) (skip limit : Int) :
    HandlerResult (List UserRead) :=
  .ok 200 (UserService.get_users db skip limit)

/-- The `get_user` route handler (src/users/api.py lines 43-68):
look up by id, 404 `"User not found"` when absent. -/
def get_user (db : AsyncSession) (user_id : UUID) :
    HandlerResult UserRead :=
  match UserService.get_user_by_id db user_id with
  | none => .httpError 404 "User not found"
  | some user => .ok 200 user

/-- The `create_user` route handler (src/users/api.py lines 71-100):
400 `"Email already registered"` when the email lookup finds a user,
otherwise delegate to the service's `create_user`. -/
def create_user (db : AsyncSession) (user_data : UserCreate) :
    HandlerResult UserRead :=
  match UserService.get_user_by_email db user_data.email with
  | some _ => .httpError 400 "Email already registered"
  | none =>
      match UserService.create_user db user_data with
      | .ok user => .ok 201 user
      | .notImplementedError m => .pyError "NotImplementedError" m

/-- The `update_user` route handler (src/users/api.py lines 103-130):
404 `"User not found"` when the service returns `None`. -/
def update_user (db : AsyncSession) (user_id : UUID)
    (user_data : UserUpdate) : HandlerResult UserRead :=
  match UserService.update_user db user_id user_data with
  | none => .httpError 404 "User not found"
  | some user => .ok 200 user

/-- The `delete_user` route handler (src/users/api.py lines 133-154):
404 `"User not found"` when the service reports no deletion, 204 with
an empty body otherwise. -/
def delete_user (db : AsyncSession) (user_id : UUID) :
    HandlerResult Unit :=
  if UserService.delete_user db user_id = true then
    .ok 204 ()
  else
    .httpError 404 "User not found"

end UsersApi

/-! ## Embedding of `src/main.py` health check and
`src/shared/exceptions.py` -/

/-- The body returned by the health-check handler: its exact four
fields. -/
structure HealthResponse where
  status : String
  app : String
  version : String
  debug : Bool
deriving DecidableEq, Repr

/-- The `health_check` handler registered in `include_routers`
(src/main.py lines 118-126): unconditionally returns 200 with the
fixed record read from the settings object. -/
def health_check (s : Settings) : HandlerResult HealthResponse :=
  .ok 200 { status := "healthy", app := s.APP_NAME,
            version := s.APP_VERSION, debug := s.DEBUG }

/-- An opaque model of an incoming HTTP request as seen by the
catch-all exception handler (which never inspects it). -/
structure Request where
  method : String
  path : String
deriving DecidableEq, Repr

/-- A raised Python exception as seen by the catch-all handler:
exception class name and message (the handler inspects neither). -/
structure PyException where
  excType : String
  message : String
deriving DecidableEq, Repr

/-- The JSON body produced by the catch-all handler. -/
structure ErrorBody where
  error : String
deriving DecidableEq, Repr

/-- `general_exception_handler` (src/shared/exceptions.py lines 9-11):
returns the fixed generic payload for every request and exception. -/
def general_exception_handler (_request : Request)
    (_exc : PyException) : ErrorBody :=
  { error := "Internal server error" }

end FastApiSlice

namespace FastApiSlice

/-- C1: any `DATABASE_URL` string whose scheme is not a PostgreSQL
scheme fails validation during `Settings` construction: either the
`validate_database_url` pre-validator raises, or the `PostgresDsn` type
check rejects the value. -/
theorem C1_database_url_non_postgresql_fails (v : String)
    (h : Settings.hasPostgresScheme v = false) :
    (Settings.databaseUrlValidation v).isError = true := by
  by_cases hs : pyStartsWith v "postgresql" = true
  · have hval : Settings.validate_database_url v = .ok v := by
      unfold Settings.validate_database_url
      rw [if_neg (by simp [hs])]
    unfold Settings.databaseUrlValidation
    rw [hval]
    show (Settings.postgresDsnCheck v).isError = true
    unfold Settings.postgresDsnCheck
    unfold Settings.hasPostgresScheme at h
    cases hu : urlScheme v with
    | none => rfl
    | some scheme =>
        rw [hu] at h
        simp only [decide_eq_false_iff_not] at h
        simp [h, VResult.isError]
  · have hval : Settings.validate_database_url v =
        .error "DATABASE_URL must be a PostgreSQL URL" := by
      unfold Settings.validate_database_url
      rw [if_pos (by simp [hs])]
    unfold Settings.databaseUrlValidation
    rw [hval]
    rfl

/-- Witness for C1 at the concrete input `"mysql://h/db"`. -/
theorem C1_witness :
    Settings.hasPostgresScheme "mysql://h/db" = false ∧
    (Settings.databaseUrlValidation "mysql://h/db").isError = true :=
  ⟨by decide, C1_database_url_non_postgresql_fails "mysql://h/db" (by decide)⟩

/-- C2: a secret-key value equal to either placeholder literal makes
`validate_secret_keys` raise (so `Settings` construction fails), and
any other value is returned unchanged. -/
theorem C2_secret_key_placeholders_rejected (v : String) :
    (v ∈ Settings.placeholderSecrets →
      (Settings.validate_secret_keys v).isError = true) ∧
    (v ∉ Settings.placeholderSecrets →
      Settings.validate_secret_keys v = .ok v) := by
  constructor
  · intro h
    unfold Settings.validate_secret_keys
    rw [if_pos h]
    rfl
  · intro h
    unfold Settings.validate_secret_keys
    rw [if_neg h]

/-- Witness for C2 at the two placeholder literals and a fresh value. -/
theorem C2_witness :
    (Settings.validate_secret_keys
      "your-super-secret-key-change-in-production").isError = true ∧
    (Settings.validate_secret_keys
      "jwt-secret-key-change-in-production").isError = true ∧
    Settings.validate_secret_keys "s3cure-key" = .ok "s3cure-key" :=
  ⟨(C2_secret_key_placeholders_rejected _).1 (by decide),
   (C2_secret_key_placeholders_rejected _).1 (by decide),
   (C2_secret_key_placeholders_rejected "s3cure-key").2 (by decide)⟩

/-- C3: the `create_user` handler ends in `NotImplementedError`
(message `"User creation not implemented"`) for every payload, and the
duplicate-email lookup returns `none` for every email, so the 400
`"Email already registered"` branch is unreachable. -/
theorem C3_create_user_always_not_implemented (db : AsyncSession)
    (user_data : UserCreate) :
    UsersApi.create_user db user_data =
      .pyError "NotImplementedError" "User creation not implemented" ∧
    (∀ email : String, UserService.get_user_by_email db email = none) :=
  ⟨rfl, fun _ => rfl⟩

/-- C4: the `get_user` handler raises `HTTPException(404, "User not
found")` for every id, because `get_user_by_id` returns `none` for
every id. -/
theorem C4_get_user_always_404 (db : AsyncSession) (user_id : UUID) :
    UsersApi.get_user db user_id = .httpError 404 "User not found" ∧
    UserService.get_user_by_id db user_id = none :=
  ⟨rfl, rfl⟩

/-- C5: the `delete_user` handler raises `HTTPException(404, "User not
found")` for every id, because `delete_user` returns `false` for every
id. -/
theorem C5_delete_user_always_404 (db : AsyncSession) (user_id : UUID) :
    UsersApi.delete_user db user_id = .httpError 404 "User not found" ∧
    UserService.delete_user db user_id = false :=
  ⟨rfl, rfl⟩

/-- C6: parsing the string `"a, b"` as `ALLOWED_ORIGINS` yields
exactly `["a", "b"]`: split on commas, each element trimmed, order
preserved. -/
theorem C6_allowed_origins_parse_example :
    Settings.parse_allowed_origins (.str "a, b") = ["a", "b"] := by
  decide

/-- C7: parsing the string `"get,post"` as `ALLOWED_METHODS` yields
exactly `["GET", "POST"]`: split on commas, each element trimmed and
upper-cased, order preserved. -/
theorem C7_allowed_methods_parse_example :
    Settings.parse_allowed_methods (.str "get,post") = ["GET", "POST"] := by
  decide

/-- C8: the health-check handler always answers 200 with exactly the
fields status (`"healthy"`), app name, version and debug flag drawn
from the settings object. -/
theorem C8_health_check_always_200 (s : Settings) :
    health_check s = .ok 200
      { status := "healthy", app := s.APP_NAME,
        version := s.APP_VERSION, debug := s.DEBUG } :=
  rfl

/-- C9: the catch-all exception handler returns the same generic
internal-error payload for every request and every exception,
preserving nothing of the original exception. -/
theorem C9_catch_all_generic_payload (request : Request)
    (exc : PyException) :
    general_exception_handler request exc =
      { error := "Internal server error" } :=
  rfl

/-- C10: on the empty string, each of the four list-field parsers
returns the one-element list containing the empty string, not the
empty list, because splitting `""` on commas yields one empty
segment. -/
theorem C10_empty_string_parses_to_singleton :
    Settings.parse_allowed_origins (.str "") = [""] ∧
    Settings.parse_allowed_methods (.str "") = [""] ∧
    Settings.parse_allowed_headers (.str "") = [""] ∧
    Settings.parse_allowed_hosts (.str "") = [""] := by
  refine ⟨rfl, rfl, rfl, rfl⟩

end FastApiSlice
